import Mathlib

/-!
Shallow embedding of `src/deep-research-trail.py` (class `CustomResearcher`).

Modelling conventions:

* Python floats (relevance scores) are modelled as rationals; the only float
  operation the controller performs on them is the comparison with the literal
  `0.3` at line 331, rendered here as `> mkRat 3 10` (the rational `3/10`;
  `mkRat` is used rather than `3 / 10` because `mkRat` literals evaluate in
  the kernel, while field division on `Rat` does not — the two are equal,
  see `threshold_eq`).
* Every external call (OpenAI chat completion, Google search, page crawl) is a
  parameter of the embedding, collected in an environment record.  Each call
  site is indexed by its position in the run (iteration number, query index,
  URL index), so the environment can give a different answer to every single
  call — this covers arbitrary, time-varying behaviour of the collaborators.
* An OpenAI chat-completion response is modelled by `ToolResp`:
  `exn` = the API call raised an exception, `noTool` = a response whose
  `tool_calls` is empty or absent, `call name args` = the first tool call of
  the response, where `args` is the result of `json.loads` on its arguments
  (`Except.error` = malformed JSON / missing required key, which raises when
  and only when the code actually parses the arguments).
* Fallible code returns `Except Unit`; an uncaught Python exception is
  `Except.error ()`.
* `_google_search` and `_crawl_website` catch their own exceptions in the
  source (returning a list resp. `None`), so they are modelled as total
  functions `List String` resp. `Option String`.
* The `while loop_count < self.max_loops` loop of `_research_subcomponent`
  increments `loop_count` by exactly one per completed iteration, so the loop
  body runs at most `max_loops - loop_count` more times; the loop is embedded
  as structural recursion on that quantity (`subLoopF` with exact fuel
  `maxLoops - loop_count`, see `subLoop` and `subLoop_eq`).
* Python `dict` (string keys, insertion ordered, assignment overwrites in
  place) is modelled as an association list with `dictInsert`.
* `list(set(xs))` (line 452) produces the distinct elements of `xs` in an
  unspecified order; it is modelled by `List.dedup`, and every theorem about
  `sources` is stated order-insensitively (`toFinset`, `Nodup`, `length`).
-/

/-- `WebsiteReport` dataclass (lines 16-23 of the source). -/
structure WebsiteReport where
  url : String
  content : String
  relevance_score : ℚ
  summary : String
  relevant_info : String
deriving DecidableEq

/-- `ResearchReport` dataclass (lines 25-33).  `findings` is a Python dict,
modelled as an insertion-ordered association list. -/
structure ResearchReport where
  query : String
  subcomponents : List String
  findings : List (String × List WebsiteReport)
  final_report : String
  timestamp : String
  sources : List String
deriving DecidableEq

/-- Outcome of one `_call_openai_with_tools` call, as consumed by the source:
either the call raised, or the response carried no tool call, or its first
tool call had a name and (lazily parsed) JSON arguments. -/
inductive ToolResp (α : Type) where
  | exn : ToolResp α
  | noTool : ToolResp α
  | call (name : String) (args : Except Unit α) : ToolResp α

/-- Arguments of a `generate_search_queries` tool call: the `queries` field,
`Option.none` when the key is absent (the source reads it with
`args.get("queries", [])`, line 310). -/
structure GenArgs where
  queries : Option (List String)

/-- Arguments of a `create_final_report` tool call, read with
`args.get("has_sufficient_info", False)` and `args.get("missing_info", [])`
(lines 348-350). -/
structure AssessArgs where
  has_sufficient_info : Option Bool
  missing_info : Option (List String)

/-- Arguments of an `analyze_website_relevance` tool call (lines 260-266).
The three fields are required keys; a missing key raises at the read, which is
already covered by the `Except.error` case of `ToolResp.call`. -/
structure AnalyzeArgs where
  relevance_score : ℚ
  summary : String
  relevant_info : String

/-- Arguments of a `decompose_query` tool call, read with
`args.get("subcomponents", [query])` (line 381). -/
structure DecArgs where
  subcomponents : Option (List String)

/-- Behaviour of the external collaborators during one
`_research_subcomponent` run.  `gen`/`assess` are indexed by the value of
`loop_count` at the call (distinct for every iteration); `searchFn` by
(iteration, query index, query); `crawlFn` and `analyzeFn` additionally by the
URL index within the query.  `searchFn` models `_google_search` (total: the
source catches its errors and falls back, lines 195-235); `crawlFn` models
`_crawl_website` (total, `none` on failure, lines 185-193). -/
structure SubEnv where
  gen : Nat → ToolResp GenArgs
  searchFn : Nat → Nat → String → List String
  crawlFn : Nat → Nat → Nat → String → Option String
  analyzeFn : Nat → Nat → Nat → String → String → ToolResp AnalyzeArgs
  assess : Nat → ToolResp AssessArgs

/-- `_analyze_website_content` (lines 248-270): if the response has a tool
call named `analyze_website_relevance`, parse its arguments and build the
report; otherwise return the default report with `relevance_score = 0` and
empty `summary` / `relevant_info`.  An API exception, or malformed arguments
of a correctly-named tool call, propagate. -/
def analyzeWebsiteContent (url content : String) (resp : ToolResp AnalyzeArgs) :
    Except Unit WebsiteReport :=
  match resp with
  | .exn => .error ()
  | .noTool => .ok ⟨url, content, 0, "", ""⟩
  | .call name args =>
    if name = "analyze_website_relevance" then
      match args with
      | .error e => .error e
      | .ok a => .ok ⟨url, content, a.relevance_score, a.summary, a.relevant_info⟩
    else .ok ⟨url, content, 0, "", ""⟩

/-- The `for url in urls[:3]` loop of `_research_subcomponent`
(lines 327-333): crawl each URL (skip on failure), analyze the content, and
append the report to `acc` exactly when `relevance_score > 0.3`.
`k` is the iteration, `qIdx` the query index, `uIdx` the URL index. -/
def crawlLoop (env : SubEnv) (k qIdx : Nat) :
    List String → Nat → List WebsiteReport → Except Unit (List WebsiteReport)
  | [], _, acc => .ok acc
  | url :: rest, uIdx, acc =>
    match env.crawlFn k qIdx uIdx url with
    | none => crawlLoop env k qIdx rest (uIdx + 1) acc
    | some content =>
      match analyzeWebsiteContent url content (env.analyzeFn k qIdx uIdx url content) with
      | .error e => .error e
      | .ok report =>
        crawlLoop env k qIdx rest (uIdx + 1)
          (if report.relevance_score > mkRat 3 10 then acc ++ [report] else acc)

/-- The `for search_query in search_queries` loop (lines 323-333): search each
query (every query, unconditionally — the source never consults the history
here) and process the first three returned URLs. -/
def queryLoop (env : SubEnv) (k : Nat) :
    List String → Nat → List WebsiteReport → Except Unit (List WebsiteReport)
  | [], _, acc => .ok acc
  | q :: rest, qIdx, acc =>
    match crawlLoop env k qIdx ((env.searchFn k qIdx q).take 3) 0 acc with
    | .error e => .error e
    | .ok acc2 => queryLoop env k rest (qIdx + 1) acc2

/-- Mutable locals of `_research_subcomponent` (lines 274-276 plus the
`loop_count` parameter). -/
structure SubState where
  all_reports : List WebsiteReport
  knowledge_gaps : List String
  search_history : List String
  loop_count : Nat
deriving DecidableEq

/-- The dict returned by `_research_subcomponent` (lines 357-362). -/
structure SubResult where
  subquery : String
  reports : List WebsiteReport
  loop_count : Nat
  search_queries_used : List String
deriving DecidableEq

/-- Outcome of one execution of the `while` body of
`_research_subcomponent`: `done` = a `break` was hit (loop exits with this
state), `next` = the body ran to `loop_count += 1` (loop continues), `fail` =
an uncaught exception. -/
inductive StepOut where
  | fail : StepOut
  | done (st : SubState) : StepOut
  | next (st : SubState) : StepOut

/-- One execution of the `while` body of `_research_subcomponent`
(lines 279-355), entered with state `st` (so `loop_count = st.loop_count`):

* query-generation call (line 300): exception propagates; no tool call, or a
  tool call that is not `generate_search_queries`, hits `break`
  (lines 302-307);
* otherwise the queries are appended to `search_history` (line 320) and the
  search/crawl/analyze loops run (lines 323-333);
* sufficiency call (line 342): exception propagates; a `create_final_report`
  tool call with `has_sufficient_info` truthy hits `break` (line 349),
  otherwise `knowledge_gaps` is replaced by `missing_info` (line 350); any
  other response leaves `knowledge_gaps` unchanged;
* a body that does not `break` ends with `loop_count += 1` (line 352). -/
def subStep (env : SubEnv) (st : SubState) : StepOut :=
  match env.gen st.loop_count with
  | .exn => .fail
  | .noTool => .done st
  | .call name argsE =>
    if name = "generate_search_queries" then
      match argsE with
      | .error _ => .fail
      | .ok gargs =>
        match queryLoop env st.loop_count (gargs.queries.getD []) 0 st.all_reports with
        | .error _ => .fail
        | .ok reports =>
          match env.assess st.loop_count with
          | .exn => .fail
          | .noTool =>
            .next ⟨reports, st.knowledge_gaps,
              st.search_history ++ gargs.queries.getD [], st.loop_count + 1⟩
          | .call name2 args2 =>
            if name2 = "create_final_report" then
              match args2 with
              | .error _ => .fail
              | .ok aargs =>
                if aargs.has_sufficient_info.getD false then
                  .done ⟨reports, st.knowledge_gaps,
                    st.search_history ++ gargs.queries.getD [], st.loop_count⟩
                else
                  .next ⟨reports, aargs.missing_info.getD [],
                    st.search_history ++ gargs.queries.getD [], st.loop_count + 1⟩
            else .next ⟨reports, st.knowledge_gaps,
              st.search_history ++ gargs.queries.getD [], st.loop_count + 1⟩
    else .done st

/-- The `while loop_count < self.max_loops` loop, as structural recursion on
the exact remaining iteration budget `maxLoops - loop_count` (each completed
body increments `loop_count` by one, see `subStep`); `subLoop_eq` below shows
the wrapper `subLoop` satisfies the literal while-loop unfolding. -/
def subLoopF (env : SubEnv) (maxLoops : Nat) :
    Nat → SubState → Except Unit SubState
  | 0, st => .ok st
  | fuel + 1, st =>
    if st.loop_count < maxLoops then
      match subStep env st with
      | .fail => .error ()
      | .done st2 => .ok st2
      | .next st2 => subLoopF env maxLoops fuel st2
    else .ok st

/-- The `while` loop of `_research_subcomponent`, started in state `st`. -/
def subLoop (env : SubEnv) (maxLoops : Nat) (st : SubState) : Except Unit SubState :=
  subLoopF env maxLoops (maxLoops - st.loop_count) st

/-- `_research_subcomponent(subquery, loop_count)` (lines 272-362), with the
source's default `loop_count = 0`. -/
def researchSubcomponent (env : SubEnv) (maxLoops : Nat) (subquery : String)
    (loop_count : Nat := 0) : Except Unit SubResult :=
  match subLoop env maxLoops ⟨[], [], [], loop_count⟩ with
  | .error e => .error e
  | .ok st => .ok ⟨subquery, st.all_reports, st.loop_count, st.search_history⟩

theorem subStep_next_loop_count (env : SubEnv) (st st2 : SubState)
    (h : subStep env st = .next st2) : st2.loop_count = st.loop_count + 1 := by
  unfold subStep at h
  repeat' split at h
  all_goals first
    | exact StepOut.noConfusion h
    | (injection h with h2; subst h2; rfl)

theorem subStep_done_loop_count (env : SubEnv) (st st2 : SubState)
    (h : subStep env st = .done st2) : st2.loop_count = st.loop_count := by
  unfold subStep at h
  repeat' split at h
  all_goals first
    | exact StepOut.noConfusion h
    | (injection h with h2; subst h2; rfl)

/-- The wrapper `subLoop` satisfies the literal unfolding of the source's
`while` loop: test the guard, run the body, and on a completed body continue
with the incremented state. -/
theorem subLoop_eq (env : SubEnv) (maxLoops : Nat) (st : SubState) :
    subLoop env maxLoops st =
      if st.loop_count < maxLoops then
        match subStep env st with
        | .fail => .error ()
        | .done st2 => .ok st2
        | .next st2 => subLoop env maxLoops st2
      else .ok st := by
  by_cases h : st.loop_count < maxLoops
  · rw [if_pos h]
    have hf : maxLoops - st.loop_count = (maxLoops - st.loop_count - 1) + 1 := by omega
    conv_lhs => rw [subLoop, hf, subLoopF]
    rw [if_pos h]
    cases h2 : subStep env st with
    | fail => rfl
    | done st2 => rfl
    | next st2 =>
      have h3 := subStep_next_loop_count env st st2 h2
      show subLoopF env maxLoops (maxLoops - st.loop_count - 1) st2 = subLoop env maxLoops st2
      rw [subLoop, h3]
      have h4 : maxLoops - st.loop_count - 1 = maxLoops - (st.loop_count + 1) := by omega
      rw [h4]
  · rw [if_neg h]
    have hf : maxLoops - st.loop_count = 0 := by omega
    rw [subLoop, hf, subLoopF]

/-- Behaviour of the external collaborators during one `research` run.
`subEnv i` is the environment seen by the `_research_subcomponent` call for
the `i`-th element of `subcomponents`; `sectionLLM i` is the outcome of the
chat completion inside `_generate_subcomponent_report` for that element
(`Except.error` = the call raised, triggering the source's fallback string);
`summaryLLM` / `conclusionLLM` likewise for `_generate_executive_summary` and
`_generate_conclusion`.  `saveOk = false` models `_save_report` raising. -/
structure REnv where
  max_loops : Nat
  decompose : ToolResp DecArgs
  subEnv : Nat → SubEnv
  sectionLLM : Nat → Except Unit String
  summaryLLM : Except Unit String
  conclusionLLM : Except Unit String
  timestamp : String
  saveOk : Bool

/-- Lines 374-381 of `research`: the decomposition call.  An exception or
malformed arguments propagate; a response without a `decompose_query` tool
call leaves the default `[query]`; a `decompose_query` call yields
`args.get("subcomponents", [query])`. -/
def subtopicsOf (env : REnv) (query : String) : Except Unit (List String) :=
  match env.decompose with
  | .exn => .error ()
  | .noTool => .ok [query]
  | .call name argsE =>
    if name = "decompose_query" then
      match argsE with
      | .error e => .error e
      | .ok dargs => .ok (dargs.subcomponents.getD [query])
    else .ok [query]

/-- Python `d[k] = v` on an insertion-ordered dict: overwrite in place if the
key is present, else append. -/
def dictInsert {α : Type} (d : List (String × α)) (k : String) (v : α) :
    List (String × α) :=
  if k ∈ d.map Prod.fst then
    d.map (fun p => if p.1 = k then (p.1, v) else p)
  else d ++ [(k, v)]

/-- `_generate_subcomponent_report` (lines 465-508): the chat completion's
text on success, else the deterministic fallback section built from the first
five reports. -/
def generateSubcomponentReport (llmResp : Except Unit String)
    (subcomponent : String) (reports : List WebsiteReport) : String :=
  match llmResp with
  | .ok content => content
  | .error _ =>
    "## Analysis of " ++ subcomponent ++ "\n\n    Based on " ++
      toString reports.length ++ " sources analyzed:\n\n    ### Key Findings:\n    " ++
      String.intercalate "\n"
        ((reports.take 5).map (fun r =>
          "- " ++ r.relevant_info.take 200 ++ "... (Source: " ++ r.url ++ ")"))

/-- `_generate_executive_summary` (lines 510-558): the chat completion's text
wrapped in the heading on success, else the deterministic fallback. -/
def generateExecutiveSummary (llmResp : Except Unit String) (query : String)
    (subcomponents : List String) (total_sources : Nat) : String :=
  match llmResp with
  | .ok content => "## Executive Summary\n\n" ++ content ++ "\n"
  | .error _ =>
    "## Executive Summary\n\n    This research report examines \"" ++ query ++
      "\" through a comprehensive analysis of " ++ toString total_sources ++
      " sources. The research was structured around " ++
      toString subcomponents.length ++
      " key areas to ensure thorough coverage of the topic. Each area was investigated through targeted searches and careful analysis of relevant sources.\n\n    The following sections provide detailed findings for each research component, offering insights, trends, and key discoveries from the analyzed sources.\n    "

/-- `_generate_conclusion` (lines 560-603): the chat completion's text wrapped
in the heading on success, else the deterministic fallback. -/
def generateConclusion (llmResp : Except Unit String) (query : String)
    (total_sources : Nat) : String :=
  match llmResp with
  | .ok content => "\n## Conclusion\n\n" ++ content ++ "\n"
  | .error _ =>
    "\n## Conclusion\n\n    This comprehensive research into \"" ++ query ++
      "\" has revealed significant insights across multiple dimensions. The analysis of " ++
      toString total_sources ++
      " sources provides a robust foundation for understanding the current state and future trajectory of this topic.\n\n    The findings demonstrate clear patterns of innovation and development, with implications for both immediate applications and long-term strategic planning. As this field continues to evolve, ongoing monitoring and research will be essential to stay current with emerging trends and opportunities.\n    "

/-- The `for subcomponent in subcomponents` loop of `research`
(lines 391-410): run `_research_subcomponent` for each subtopic (exceptions
propagate), store its reports in `all_findings`, and store in
`subcomponent_reports` either the generated section (non-empty reports) or
the fixed placeholder (empty reports).  `idx` is the position of the next
subtopic in the original sequence. -/
def buildDicts (env : REnv) :
    Nat → List String → List (String × List WebsiteReport) →
    List (String × String) →
    Except Unit (List (String × List WebsiteReport) × List (String × String))
  | _, [], findings, screps => .ok (findings, screps)
  | idx, sc :: rest, findings, screps =>
    match researchSubcomponent (env.subEnv idx) env.max_loops sc with
    | .error e => .error e
    | .ok result =>
      buildDicts env (idx + 1) rest (dictInsert findings sc result.reports)
        (dictInsert screps sc
          (if result.reports ≠ [] then
            generateSubcomponentReport (env.sectionLLM idx) sc result.reports
          else "No relevant information found for this topic.\n"))

/-- `sum(len(v) for v in all_findings.values())` (line 418). -/
def totalSources (findings : List (String × List WebsiteReport)) : Nat :=
  (findings.map (fun p => p.2.length)).sum

/-- Lines 417-439 of `research`: executive summary, detailed-findings
sections in dict order (`"\n### name\n"` header, section text, `"\n"`), and
conclusion, joined into one string. -/
def mkFinalReport (env : REnv) (query : String) (subcomponents : List String)
    (findings : List (String × List WebsiteReport))
    (screps : List (String × String)) : String :=
  String.join
    (["# Research Report\n\n",
      generateExecutiveSummary env.summaryLLM query subcomponents (totalSources findings),
      "\n## Detailed Findings\n"] ++
      screps.flatMap (fun p => ["\n### " ++ p.1 ++ "\n", p.2, "\n"]) ++
      [generateConclusion env.conclusionLLM query (totalSources findings)])

/-- `research(query)` (lines 364-463): decompose (default `[query]`), run the
subtopic loops in order, assemble the final report, deduplicate the global
source list (`list(set(all_sources))`, line 452, modelled by `List.dedup`),
save, and return the `ResearchReport`. -/
def research (env : REnv) (query : String) : Except Unit ResearchReport :=
  match subtopicsOf env query with
  | .error e => .error e
  | .ok subcomponents =>
    match buildDicts env 0 subcomponents [] [] with
    | .error e => .error e
    | .ok (all_findings, subcomponent_reports) =>
      if env.saveOk then
        .ok
          { query := query
            subcomponents := subcomponents
            findings := all_findings
            final_report := mkFinalReport env query subcomponents all_findings subcomponent_reports
            timestamp := env.timestamp
            sources := (all_findings.flatMap (fun p => p.2.map (fun r => r.url))).dedup }
      else .error ()

/-- Subtopic environment in which every chat completion returns no tool
call. -/
def trivSubEnv : SubEnv :=
  { gen := fun _ => .noTool
    searchFn := fun _ _ _ => []
    crawlFn := fun _ _ _ _ => none
    analyzeFn := fun _ _ _ _ _ => .noTool
    assess := fun _ => .noTool }

/-- Environment whose single generated query returns the same URL twice,
with both fetches and analyses succeeding at score `0.9`, and whose
sufficiency assessment immediately reports sufficient. -/
def cenvC1 : SubEnv :=
  { gen := fun _ => .call "generate_search_queries" (.ok ⟨some ["q"]⟩)
    searchFn := fun _ _ _ => ["u", "u"]
    crawlFn := fun _ _ _ _ => some "c"
    analyzeFn := fun _ _ _ _ _ => .call "analyze_website_relevance" (.ok ⟨mkRat 9 10, "sum", "inf"⟩)
    assess := fun _ => .call "create_final_report" (.ok ⟨some true, none⟩) }

/-- Environment that generates the same query `"q"` in every iteration; the
fetch fails in iteration 0 and succeeds from iteration 1 on; assessments
return no tool call. -/
def cenvC3 : SubEnv :=
  { gen := fun _ => .call "generate_search_queries" (.ok ⟨some ["q"]⟩)
    searchFn := fun _ _ _ => ["u"]
    crawlFn := fun k _ _ _ => if k = 0 then none else some "c"
    analyzeFn := fun _ _ _ _ _ => .call "analyze_website_relevance" (.ok ⟨mkRat 1 2, "sum", "inf"⟩)
    assess := fun _ => .noTool }

/-- Environment whose query generation returns a `generate_search_queries`
tool call with an empty `queries` list, and whose sufficiency-assessment call
raises. -/
def cenvC5 : SubEnv :=
  { gen := fun _ => .call "generate_search_queries" (.ok ⟨some []⟩)
    searchFn := fun _ _ _ => []
    crawlFn := fun _ _ _ _ => none
    analyzeFn := fun _ _ _ _ _ => .noTool
    assess := fun _ => .exn }

/-- Environment whose first iteration accepts one evidence item and whose
sufficiency-assessment call then raises. -/
def cenvC9 : SubEnv :=
  { gen := fun _ => .call "generate_search_queries" (.ok ⟨some ["q"]⟩)
    searchFn := fun _ _ _ => ["u"]
    crawlFn := fun _ _ _ _ => some "c"
    analyzeFn := fun _ _ _ _ _ => .call "analyze_website_relevance" (.ok ⟨mkRat 1 2, "sum", "inf"⟩)
    assess := fun _ => .exn }

/-- A chat-completion outcome that raises no Python exception on the
consuming path: the call returned (not `exn`) and, if it carried a tool call,
its arguments parse. -/
def ToolResp.Clean {α : Type} : ToolResp α → Prop
  | .exn => False
  | .noTool => True
  | .call _ (.error _) => False
  | .call _ (.ok _) => True

/-- A subtopic environment none of whose chat completions raises: under such
an environment every malformed or missing tool call is absorbed by the
controller (`c9_clean_env_returns`). -/
def SubEnv.Clean (env : SubEnv) : Prop :=
  (∀ k, (env.gen k).Clean) ∧ (∀ k, (env.assess k).Clean) ∧
    (∀ k qIdx uIdx url content, (env.analyzeFn k qIdx uIdx url content).Clean)


/-- Environment whose scoring call returns no tool call while search and
crawl succeed. -/
def cenvC10 : SubEnv :=
  { gen := fun _ => .noTool
    searchFn := fun _ _ _ => ["u"]
    crawlFn := fun _ _ _ _ => some "c"
    analyzeFn := fun _ _ _ _ _ => .noTool
    assess := fun _ => .noTool }

/-- Orchestrator environment in which every chat completion returns no tool
call, `max_loops = 0`, and the synthesis calls return fixed strings. -/
def trivREnv : REnv :=
  { max_loops := 0
    decompose := .noTool
    subEnv := fun _ => trivSubEnv
    sectionLLM := fun _ => .ok "sec"
    summaryLLM := .ok "sum"
    conclusionLLM := .ok "conc"
    timestamp := "t"
    saveOk := true }

/-- Orchestrator environment whose decomposition call returns a
`decompose_query` tool call with an empty `subcomponents` list. -/
def cenvC6 : REnv :=
  { trivREnv with decompose := .call "decompose_query" (.ok ⟨some []⟩) }

/-- Orchestrator environment whose decomposition yields the duplicate
subtopic list `["a", "a"]`. -/
def cenvC8 : REnv :=
  { trivREnv with decompose := .call "decompose_query" (.ok ⟨some ["a", "a"]⟩) }

/-- The report produced by `research trivREnv "q"`. -/
def trivReport : ResearchReport :=
  { query := "q"
    subcomponents := ["q"]
    findings := [("q", [])]
    final_report := "# Research Report\n\n## Executive Summary\n\nsum\n\n## Detailed Findings\n\n### q\nNo relevant information found for this topic.\n\n\n## Conclusion\n\nconc\n"
    timestamp := "t"
    sources := [] }


/-- The acceptance threshold used in this embedding, `mkRat 3 10`, is the
source's literal `0.3`. -/
theorem threshold_eq : mkRat 3 10 = 3 / 10 := by
  norm_num [Rat.mkRat_eq_div]


theorem crawlLoop_score (env : SubEnv) (k qIdx : Nat) :
    ∀ (urls : List String) (uIdx : Nat) (acc acc2 : List WebsiteReport),
      (∀ w ∈ acc, w.relevance_score > mkRat 3 10) →
      crawlLoop env k qIdx urls uIdx acc = .ok acc2 →
      ∀ w ∈ acc2, w.relevance_score > mkRat 3 10 := by
  intro urls
  induction urls with
  | nil =>
    intro uIdx acc acc2 hacc h
    injection h with h2
    subst h2
    exact hacc
  | cons url rest ih =>
    intro uIdx acc acc2 hacc h
    simp only [crawlLoop] at h
    split at h
    · exact ih _ _ _ hacc h
    · split at h
      · exact Except.noConfusion h
      · refine ih _ _ _ ?_ h
        split
        · intro w hw
          rcases List.mem_append.mp hw with h1 | h1
          · exact hacc w h1
          · rw [List.mem_singleton.mp h1]
            assumption
        · exact hacc

theorem queryLoop_score (env : SubEnv) (k : Nat) :
    ∀ (qs : List String) (qIdx : Nat) (acc acc2 : List WebsiteReport),
      (∀ w ∈ acc, w.relevance_score > mkRat 3 10) →
      queryLoop env k qs qIdx acc = .ok acc2 →
      ∀ w ∈ acc2, w.relevance_score > mkRat 3 10 := by
  intro qs
  induction qs with
  | nil =>
    intro qIdx acc acc2 hacc h
    injection h with h2
    subst h2
    exact hacc
  | cons q rest ih =>
    intro qIdx acc acc2 hacc h
    simp only [queryLoop] at h
    split at h
    · exact Except.noConfusion h
    · exact ih _ _ _ (crawlLoop_score env k qIdx _ _ _ _ hacc (by assumption)) h

theorem subStep_score (env : SubEnv) (st : SubState)
    (hacc : ∀ w ∈ st.all_reports, w.relevance_score > mkRat 3 10) :
    ∀ st2, (subStep env st = .done st2 ∨ subStep env st = .next st2) →
      ∀ w ∈ st2.all_reports, w.relevance_score > mkRat 3 10 := by
  intro st2 h12 w hw
  rcases h12 with h | h <;>
  · unfold subStep at h
    repeat' split at h
    all_goals first
      | exact StepOut.noConfusion h
      | (injection h with h2; subst h2; exact hacc w hw)
      | (injection h with h2; subst h2;
         exact queryLoop_score env st.loop_count _ 0 st.all_reports _ hacc (by assumption) w hw)

theorem subLoopF_score (env : SubEnv) (maxLoops : Nat) :
    ∀ (fuel : Nat) (st st2 : SubState),
      (∀ w ∈ st.all_reports, w.relevance_score > mkRat 3 10) →
      subLoopF env maxLoops fuel st = .ok st2 →
      ∀ w ∈ st2.all_reports, w.relevance_score > mkRat 3 10 := by
  intro fuel
  induction fuel with
  | zero =>
    intro st st2 hacc h
    injection h with h2
    subst h2
    exact hacc
  | succ fuel ih =>
    intro st st2 hacc h
    simp only [subLoopF] at h
    by_cases hlt : st.loop_count < maxLoops
    · rw [if_pos hlt] at h
      cases h2 : subStep env st with
      | fail => rw [h2] at h; exact Except.noConfusion h
      | done st3 =>
        rw [h2] at h
        injection h with h3
        subst h3
        exact subStep_score env st hacc st3 (Or.inl h2)
      | next st3 =>
        rw [h2] at h
        exact ih st3 st2 (subStep_score env st hacc st3 (Or.inr h2)) h
    · rw [if_neg hlt] at h
      injection h with h2
      subst h2
      exact hacc

/-- C2: every evidence item appended to `all_reports` by
`_research_subcomponent` has `relevance_score` strictly greater than the
hard-coded acceptance threshold `0.3` (line 331); an item with score `≤ 0.3`
is never accepted.  Holds for every behaviour of the external calls. -/
theorem c2_accepted_above_threshold (env : SubEnv) (maxLoops : Nat)
    (subquery : String) (lc : Nat) (r : SubResult)
    (h : researchSubcomponent env maxLoops subquery lc = .ok r) :
    ∀ w ∈ r.reports, w.relevance_score > mkRat 3 10 := by
  unfold researchSubcomponent at h
  split at h
  · exact Except.noConfusion h
  · injection h with h2
    subst h2
    intro w hw
    refine subLoopF_score env maxLoops (maxLoops - lc) ⟨[], [], [], lc⟩ _ ?_ (by assumption) w hw
    intro w2 hw2
    exact absurd hw2 (List.not_mem_nil w2)


/-- Witness for C2: the single item accepted in the run driven by `cenvC3`
has a score above the threshold. -/
theorem c2_accepted_above_threshold_witness :
    (⟨"u", "c", mkRat 1 2, "sum", "inf"⟩ : WebsiteReport).relevance_score > mkRat 3 10 :=
  c2_accepted_above_threshold cenvC3 2 "s" 0
    ⟨"s", [⟨"u", "c", mkRat 1 2, "sum", "inf"⟩], 2, ["q", "q"]⟩ rfl
    ⟨"u", "c", mkRat 1 2, "sum", "inf"⟩ (List.mem_singleton.mpr rfl)

theorem subLoopF_bound (env : SubEnv) (maxLoops : Nat) :
    ∀ (fuel : Nat) (st st2 : SubState),
      st.loop_count ≤ maxLoops →
      subLoopF env maxLoops fuel st = .ok st2 →
      st2.loop_count ≤ maxLoops := by
  intro fuel
  induction fuel with
  | zero =>
    intro st st2 hle h
    injection h with h2
    subst h2
    exact hle
  | succ fuel ih =>
    intro st st2 hle h
    simp only [subLoopF] at h
    by_cases hlt : st.loop_count < maxLoops
    · rw [if_pos hlt] at h
      cases h2 : subStep env st with
      | fail => rw [h2] at h; exact Except.noConfusion h
      | done st3 =>
        rw [h2] at h
        injection h with h3
        subst h3
        rw [subStep_done_loop_count env st st3 h2]
        exact hle
      | next st3 =>
        rw [h2] at h
        refine ih st3 st2 ?_ h
        rw [subStep_next_loop_count env st st3 h2]
        omega
    · rw [if_neg hlt] at h
      injection h with h2
      subst h2
      exact hle

/-- C4: for every behaviour of the external calls, the subtopic research
loop (total by construction in this embedding) leaves `loop_count ≤
max_loops` when entered with the source's default `loop_count = 0`; the loop
body therefore runs at most `max_loops` times. -/
theorem c4_loop_count_bounded (env : SubEnv) (maxLoops : Nat)
    (subquery : String) (r : SubResult)
    (h : researchSubcomponent env maxLoops subquery = .ok r) :
    r.loop_count ≤ maxLoops := by
  unfold researchSubcomponent at h
  split at h
  · exact Except.noConfusion h
  · injection h with h2
    subst h2
    exact subLoopF_bound env maxLoops (maxLoops - 0) ⟨[], [], [], 0⟩ _
      (Nat.zero_le maxLoops) (by assumption)

/-- Witness for C4 at a concrete environment. -/
theorem c4_loop_count_bounded_witness :
    (⟨"s", [], 0, []⟩ : SubResult).loop_count ≤ 1 :=
  c4_loop_count_bounded trivSubEnv 1 "s" ⟨"s", [], 0, []⟩ rfl


/-- C1 counterexample: in the run driven by `cenvC1`, the accepted-evidence
sequence ends as two items both with `source_url = "u"` — the insertion test
at line 331 checks only the score, never whether the URL is already present,
so `all_reports` can hold duplicate URLs and the claimed dedup invariant is
false. -/
theorem c1_counterexample :
    (researchSubcomponent cenvC1 1 "s").map (fun r => r.reports.map (fun w => w.url)) =
      .ok ["u", "u"] ∧ ¬ (["u", "u"] : List String).Nodup :=
  ⟨rfl, by decide⟩

/-- C1 amended: an item whose page was fetched and analyzed is appended to
the accepted-evidence sequence whenever its `relevance_score` exceeds `0.3`,
with no condition on `acc` — in particular the item is appended even when its
URL already occurs in `acc`, so acceptance dedups nothing. -/
theorem c1_admission_ignores_urls (env : SubEnv) (k qIdx uIdx : Nat)
    (url content : String) (rest : List String) (acc : List WebsiteReport)
    (rep : WebsiteReport)
    (hc : env.crawlFn k qIdx uIdx url = some content)
    (ha : analyzeWebsiteContent url content (env.analyzeFn k qIdx uIdx url content) = .ok rep)
    (hs : rep.relevance_score > mkRat 3 10) :
    crawlLoop env k qIdx (url :: rest) uIdx acc =
      crawlLoop env k qIdx rest (uIdx + 1) (acc ++ [rep]) := by
  simp only [crawlLoop, hc, ha]
  rw [if_pos hs]

/-- Witness for the amended C1: the accumulator already holds an item with
URL `"u"`, and the freshly analyzed page with the same URL is appended
anyway. -/
theorem c1_admission_ignores_urls_witness :
    crawlLoop cenvC1 0 0 ["u"] 1 [⟨"u", "c", mkRat 9 10, "sum", "inf"⟩] =
      crawlLoop cenvC1 0 0 [] 2
        ([⟨"u", "c", mkRat 9 10, "sum", "inf"⟩] ++ [⟨"u", "c", mkRat 9 10, "sum", "inf"⟩]) :=
  c1_admission_ignores_urls cenvC1 0 0 1 "u" "c" []
    [⟨"u", "c", mkRat 9 10, "sum", "inf"⟩] ⟨"u", "c", mkRat 9 10, "sum", "inf"⟩
    rfl rfl (by decide)


/-- C3 counterexample: iteration 0 issues `"q"` (recording it in the search
history) and gets nothing; iteration 1 generates the same `"q"`, which is
already in the history, yet the source executes it again — the history ends
as `["q", "q"]` and the re-issued query yields an accepted item, so the run
is not empty.  A query in the history is never skipped: lines 319-325 append
to `search_history` and then search every generated query unconditionally. -/
theorem c3_counterexample :
    (researchSubcomponent cenvC3 2 "s").map
        (fun r => (r.search_queries_used, r.reports.length)) = .ok (["q", "q"], 1) ∧
      ¬ (["q", "q"] : List String).Nodup :=
  ⟨rfl, by decide⟩

/-- C3 amended: the generated queries are appended to `search_history` and
every one of them is passed to the search/crawl stage, with no filtering
against the existing history (which is only fed back to the query-generation
prompt as context). -/
theorem c3_history_not_consulted (env : SubEnv) (maxLoops : Nat) (st : SubState)
    (qs : List String) (reports : List WebsiteReport)
    (hlt : st.loop_count < maxLoops)
    (hg : env.gen st.loop_count = .call "generate_search_queries" (.ok ⟨some qs⟩))
    (hq : queryLoop env st.loop_count qs 0 st.all_reports = .ok reports)
    (ha : env.assess st.loop_count = .call "create_final_report" (.ok ⟨some true, none⟩)) :
    subLoop env maxLoops st =
      .ok ⟨reports, st.knowledge_gaps, st.search_history ++ qs, st.loop_count⟩ := by
  rw [subLoop_eq, if_pos hlt]
  have hs : subStep env st =
      .done ⟨reports, st.knowledge_gaps, st.search_history ++ qs, st.loop_count⟩ := by
    unfold subStep
    rw [hg]
    simp only [Option.getD_some, hq, ha]
    rfl
  rw [hs]

/-- Witness for the amended C3: the loop is entered with `"q"` already in the
search history; the freshly generated `["q"]` is still searched (accepting
the same page twice) and appended, leaving the history `["q", "q"]`. -/
theorem c3_history_not_consulted_witness :
    subLoop cenvC1 1 ⟨[], [], ["q"], 0⟩ =
      .ok ⟨[⟨"u", "c", mkRat 9 10, "sum", "inf"⟩, ⟨"u", "c", mkRat 9 10, "sum", "inf"⟩],
        [], ["q"] ++ ["q"], 0⟩ :=
  c3_history_not_consulted cenvC1 1 ⟨[], [], ["q"], 0⟩ ["q"]
    [⟨"u", "c", mkRat 9 10, "sum", "inf"⟩, ⟨"u", "c", mkRat 9 10, "sum", "inf"⟩]
    (by decide) rfl rfl rfl

/-- C5 counterexample: the generator yields a well-formed
`generate_search_queries` call with zero queries, yet the loop does not
transition directly to a terminal state — it goes on to the sufficiency
assessment (whose exception here escapes), instead of returning the
terminal-state result the claim describes. -/
theorem c5_counterexample :
    researchSubcomponent cenvC5 1 "s" = .error () ∧
      (Except.error () : Except Unit SubResult) ≠
        .ok ⟨"s", [], 0, []⟩ := by
  refine ⟨rfl, fun hcontra => ?_⟩
  exact Except.noConfusion hcontra

/-- C5 amended: only a response with no `generate_search_queries` tool call
makes the loop exit immediately, with the state untouched and no search,
fetch or assessment performed; a well-formed tool call with an empty
`queries` list instead proceeds through the (vacuous) search stage and still
performs the sufficiency assessment, whose outcome drives the loop on. -/
theorem c5_generation_no_tool_breaks (env : SubEnv) (maxLoops : Nat) (st : SubState)
    (hlt : st.loop_count < maxLoops) :
    (env.gen st.loop_count = .noTool → subLoop env maxLoops st = .ok st) ∧
    (∀ gaps : List String,
      env.gen st.loop_count = .call "generate_search_queries" (.ok ⟨some []⟩) →
      env.assess st.loop_count = .call "create_final_report" (.ok ⟨some false, some gaps⟩) →
      subLoop env maxLoops st =
        subLoop env maxLoops ⟨st.all_reports, gaps, st.search_history, st.loop_count + 1⟩) := by
  constructor
  · intro hg
    rw [subLoop_eq, if_pos hlt]
    have hs : subStep env st = .done st := by
      unfold subStep
      rw [hg]
    rw [hs]
  · intro gaps hg ha
    rw [subLoop_eq, if_pos hlt]
    have hs : subStep env st =
        .next ⟨st.all_reports, gaps, st.search_history, st.loop_count + 1⟩ := by
      simp [subStep, hg, ha, queryLoop]
    rw [hs]

/-- Witness for the amended C5 at a concrete environment and state. -/
theorem c5_generation_no_tool_breaks_witness :
    subLoop trivSubEnv 1 ⟨[], [], [], 0⟩ = .ok ⟨[], [], [], 0⟩ :=
  (c5_generation_no_tool_breaks trivSubEnv 1 ⟨[], [], [], 0⟩ (by decide)).1 rfl

/-- C9 counterexample: in the run driven by `cenvC9` the first iteration
accepts an evidence item, then the sufficiency-assessment call raises; the
exception is not caught anywhere in `_research_subcomponent` (lines 336-342
have no `try`): it unwinds past the loop and the collected evidence is lost,
so the run does not return the collected evidence as the claim requires. -/
theorem c9_counterexample :
    researchSubcomponent cenvC9 3 "s" = .error () := rfl

theorem analyzeWebsiteContent_clean (url content : String) (resp : ToolResp AnalyzeArgs)
    (h : resp.Clean) : ∃ rep, analyzeWebsiteContent url content resp = .ok rep := by
  cases resp with
  | exn => exact h.elim
  | noTool => exact ⟨_, rfl⟩
  | call name args =>
    cases args with
    | error e => exact h.elim
    | ok a =>
      by_cases hn : name = "analyze_website_relevance"
      · subst hn
        exact ⟨_, rfl⟩
      · refine ⟨⟨url, content, 0, "", ""⟩, ?_⟩
        simp only [analyzeWebsiteContent, if_neg hn]

theorem crawlLoop_clean (env : SubEnv) (k qIdx : Nat)
    (hana : ∀ k2 q2 u2 url content, (env.analyzeFn k2 q2 u2 url content).Clean) :
    ∀ (urls : List String) (uIdx : Nat) (acc : List WebsiteReport),
      ∃ acc2, crawlLoop env k qIdx urls uIdx acc = .ok acc2 := by
  intro urls
  induction urls with
  | nil => intro uIdx acc; exact ⟨acc, rfl⟩
  | cons url rest ih =>
    intro uIdx acc
    cases hc : env.crawlFn k qIdx uIdx url with
    | none =>
      obtain ⟨acc2, h2⟩ := ih (uIdx + 1) acc
      exact ⟨acc2, by simp only [crawlLoop, hc]; exact h2⟩
    | some content =>
      obtain ⟨rep, hrep⟩ :=
        analyzeWebsiteContent_clean url content _ (hana k qIdx uIdx url content)
      obtain ⟨acc2, h2⟩ :=
        ih (uIdx + 1) (if rep.relevance_score > mkRat 3 10 then acc ++ [rep] else acc)
      exact ⟨acc2, by simp only [crawlLoop, hc, hrep]; exact h2⟩

theorem queryLoop_clean (env : SubEnv) (k : Nat)
    (hana : ∀ k2 q2 u2 url content, (env.analyzeFn k2 q2 u2 url content).Clean) :
    ∀ (qs : List String) (qIdx : Nat) (acc : List WebsiteReport),
      ∃ acc2, queryLoop env k qs qIdx acc = .ok acc2 := by
  intro qs
  induction qs with
  | nil => intro qIdx acc; exact ⟨acc, rfl⟩
  | cons q rest ih =>
    intro qIdx acc
    obtain ⟨acc1, h1⟩ := crawlLoop_clean env k qIdx hana ((env.searchFn k qIdx q).take 3) 0 acc
    obtain ⟨acc2, h2⟩ := ih (qIdx + 1) acc1
    exact ⟨acc2, by simp only [queryLoop, h1]; exact h2⟩

theorem subStep_clean (env : SubEnv) (henv : env.Clean) (st : SubState) :
    subStep env st ≠ .fail := by
  obtain ⟨hgen, hass, hana⟩ := henv
  cases hg : env.gen st.loop_count with
  | exn =>
    have h2 := hgen st.loop_count
    rw [hg] at h2
    exact h2.elim
  | noTool => simp [subStep, hg]
  | call name argsE =>
    cases argsE with
    | error e =>
      have h2 := hgen st.loop_count
      rw [hg] at h2
      exact h2.elim
    | ok gargs =>
      by_cases hn : name = "generate_search_queries"
      · obtain ⟨reports, hq⟩ :=
          queryLoop_clean env st.loop_count hana (gargs.queries.getD []) 0 st.all_reports
        cases ha : env.assess st.loop_count with
        | exn =>
          have h2 := hass st.loop_count
          rw [ha] at h2
          exact h2.elim
        | noTool => simp [subStep, hg, hn, hq, ha]
        | call name2 args2 =>
          cases args2 with
          | error e =>
            have h2 := hass st.loop_count
            rw [ha] at h2
            exact h2.elim
          | ok aargs =>
            by_cases hn2 : name2 = "create_final_report"
            · by_cases hsuf : aargs.has_sufficient_info.getD false <;>
                simp [subStep, hg, hn, hq, ha, hn2, hsuf]
            · simp [subStep, hg, hn, hq, ha, hn2]
      · simp [subStep, hg, hn]

theorem subLoopF_clean (env : SubEnv) (henv : env.Clean) (maxLoops : Nat) :
    ∀ (fuel : Nat) (st : SubState), ∃ st2, subLoopF env maxLoops fuel st = .ok st2 := by
  intro fuel
  induction fuel with
  | zero => intro st; exact ⟨st, rfl⟩
  | succ fuel ih =>
    intro st
    by_cases hlt : st.loop_count < maxLoops
    · cases hs : subStep env st with
      | fail => exact absurd hs (subStep_clean env henv st)
      | done st2 => exact ⟨st2, by simp only [subLoopF, if_pos hlt, hs]⟩
      | next st2 =>
        obtain ⟨st3, h3⟩ := ih st2
        exact ⟨st3, by simp only [subLoopF, if_pos hlt, hs]; exact h3⟩
    · exact ⟨st, by simp only [subLoopF, if_neg hlt]⟩

/-- C9 amended: a chat-completion response that lacks the expected tool call
(or carries an unexpected tool name) is absorbed as absence of signal — under
an exception-free environment the subtopic run always returns a result.  An
actual exception from the query-generation, analysis, or assessment call,
however, propagates out of `_research_subcomponent` uncaught
(`c9_counterexample`). -/
theorem c9_clean_env_returns (env : SubEnv) (maxLoops : Nat) (subquery : String)
    (lc : Nat) (henv : env.Clean) :
    (researchSubcomponent env maxLoops subquery lc).isOk = true := by
  obtain ⟨st2, h⟩ := subLoopF_clean env henv maxLoops (maxLoops - lc) ⟨[], [], [], lc⟩
  unfold researchSubcomponent subLoop
  rw [h]
  rfl

/-- Witness for the amended C9 at a concrete exception-free environment. -/
theorem c9_clean_env_returns_witness :
    (researchSubcomponent trivSubEnv 1 "s" 0).isOk = true :=
  c9_clean_env_returns trivSubEnv 1 "s" 0
    ⟨fun _ => trivial, fun _ => trivial, fun _ _ _ _ _ => trivial⟩

/-- C10: when the scoring call returns no tool call, or a tool call whose
name is not `analyze_website_relevance`, `_analyze_website_content` returns
the default report with `relevance_score = 0` and empty `summary` and
`relevant_info` (line 270), and the page is therefore never appended to the
accepted evidence, since `0 > 0.3` is false (lines 330-333). -/
theorem c10_default_report_never_accepted (env : SubEnv) (k qIdx uIdx : Nat)
    (url content : String) (rest : List String) (acc : List WebsiteReport)
    (hr : env.analyzeFn k qIdx uIdx url content = .noTool ∨
      ∃ nm args, env.analyzeFn k qIdx uIdx url content = .call nm args ∧
        nm ≠ "analyze_website_relevance") :
    analyzeWebsiteContent url content (env.analyzeFn k qIdx uIdx url content) =
      .ok ⟨url, content, 0, "", ""⟩ ∧
    (env.crawlFn k qIdx uIdx url = some content →
      crawlLoop env k qIdx (url :: rest) uIdx acc =
        crawlLoop env k qIdx rest (uIdx + 1) acc) := by
  have hana : analyzeWebsiteContent url content (env.analyzeFn k qIdx uIdx url content) =
      .ok ⟨url, content, 0, "", ""⟩ := by
    rcases hr with h | ⟨nm, args, h, hnm⟩
    · rw [h]
      rfl
    · rw [h]
      simp only [analyzeWebsiteContent, if_neg hnm]
  refine ⟨hana, fun hc => ?_⟩
  simp only [crawlLoop, hc, hana]
  have hz : ¬ ((⟨url, content, 0, "", ""⟩ : WebsiteReport).relevance_score > mkRat 3 10) := by
    norm_num [Rat.mkRat_eq_div]
  rw [if_neg hz]

/-- Witness for C10 at a concrete environment. -/
theorem c10_default_report_never_accepted_witness :
    analyzeWebsiteContent "u" "c" (cenvC10.analyzeFn 0 0 0 "u" "c") =
      .ok ⟨"u", "c", 0, "", ""⟩ ∧
    crawlLoop cenvC10 0 0 ["u"] 0 [] = crawlLoop cenvC10 0 0 [] 1 [] := by
  obtain ⟨h1, h2⟩ := c10_default_report_never_accepted cenvC10 0 0 0 "u" "c" [] [] (Or.inl rfl)
  exact ⟨h1, h2 rfl⟩

theorem research_ok_elim (env : REnv) (query : String) (r : ResearchReport)
    (h : research env query = .ok r) :
    ∃ subs findings screps,
      subtopicsOf env query = .ok subs ∧
      buildDicts env 0 subs [] [] = .ok (findings, screps) ∧
      env.saveOk = true ∧
      r = { query := query, subcomponents := subs, findings := findings,
            final_report := mkFinalReport env query subs findings screps,
            timestamp := env.timestamp,
            sources := (findings.flatMap (fun p => p.2.map (fun w => w.url))).dedup } := by
  unfold research at h
  split at h
  · exact Except.noConfusion h
  · split at h
    · exact Except.noConfusion h
    · split at h
      · injection h with h2
        exact ⟨_, _, _, by assumption, by assumption, by assumption, h2.symm⟩
      · exact Except.noConfusion h

/-- C6 counterexample: the decomposition call returns a well-formed
`decompose_query` invocation with an empty `subcomponents` list; `research`
does not fall back to `[query]` — it proceeds with zero subtopics (the
`args.get("subcomponents", [query])` default at line 381 only fires when the
key is absent, not when the list is empty). -/
theorem c6_counterexample :
    (research cenvC6 "X").map (fun r => r.subcomponents) = .ok [] ∧
      ([] : List String) ≠ ["X"] := by
  refine ⟨rfl, fun hcontra => ?_⟩
  exact List.noConfusion hcontra

/-- C6 amended: when the decomposition response carries no `decompose_query`
tool call, `research` proceeds with the single-element fallback `[query]`.
(An empty `subcomponents` list is used as-is, and an exception from the
decomposition call propagates out of `research` — see
`c6_counterexample`.) -/
theorem c6_fallback_on_missing_tool_call (env : REnv) (query : String)
    (hd : env.decompose = .noTool ∨
      ∃ nm args, env.decompose = .call nm args ∧ nm ≠ "decompose_query") :
    subtopicsOf env query = .ok [query] ∧
      ∀ r, research env query = .ok r → r.subcomponents = [query] := by
  have hs : subtopicsOf env query = .ok [query] := by
    rcases hd with h | ⟨nm, args, h, hnm⟩
    · unfold subtopicsOf
      rw [h]
    · unfold subtopicsOf
      rw [h]
      simp only [if_neg hnm]
  refine ⟨hs, fun r hr => ?_⟩
  obtain ⟨subs, findings, screps, h1, h2, h3, rfl⟩ := research_ok_elim env query r hr
  rw [hs] at h1
  injection h1 with h4
  exact h4.symm

/-- Witness for the amended C6 at a concrete environment. -/
theorem c6_fallback_on_missing_tool_call_witness :
    subtopicsOf trivREnv "X" = .ok ["X"] :=
  (c6_fallback_on_missing_tool_call trivREnv "X" (Or.inl rfl)).1

/-- C7: in every completed run, `sources` is exactly the deduplicated union
of the `source_url`s of the accepted evidence recorded in `findings` (lines
441-452 concatenate `r.url` over all findings and apply `list(set(...))`);
stated order-insensitively, it has the same elements, no duplicates, and
length at most the total accepted-evidence count. -/
theorem c7_sources_dedup_union (env : REnv) (query : String) (r : ResearchReport)
    (h : research env query = .ok r) :
    r.sources.toFinset =
        (r.findings.flatMap (fun p => p.2.map (fun w => w.url))).toFinset ∧
      r.sources.Nodup ∧
      r.sources.length ≤ (r.findings.map (fun p => p.2.length)).sum := by
  obtain ⟨subs, findings, screps, h1, h2, h3, rfl⟩ := research_ok_elim env query r h
  refine ⟨?_, List.nodup_dedup _, ?_⟩
  · ext a
    simp [List.mem_dedup]
  · calc ((findings.flatMap (fun p => p.2.map (fun w => w.url))).dedup).length
        ≤ (findings.flatMap (fun p => p.2.map (fun w => w.url))).length :=
          (List.dedup_sublist _).length_le
      _ = (findings.map (fun p => p.2.length)).sum := by
          simp [List.length_flatMap, Function.comp_def, List.length_map]

/-- Witness for C7 at a concrete environment. -/
theorem c7_sources_dedup_union_witness :
    trivReport.sources.toFinset =
        (trivReport.findings.flatMap (fun p => p.2.map (fun w => w.url))).toFinset ∧
      trivReport.sources.Nodup ∧
      trivReport.sources.length ≤ (trivReport.findings.map (fun p => p.2.length)).sum :=
  c7_sources_dedup_union trivREnv "q" trivReport rfl

theorem dictInsert_notMem {α : Type} (d : List (String × α)) (k : String) (v : α)
    (h : k ∉ d.map Prod.fst) : dictInsert d k v = d ++ [(k, v)] := by
  unfold dictInsert
  rw [if_neg h]

theorem buildDicts_fresh (env : REnv) :
    ∀ (subs : List String) (idx : Nat)
      (f0 : List (String × List WebsiteReport)) (s0 : List (String × String))
      (f : List (String × List WebsiteReport)) (s : List (String × String)),
      subs.Nodup →
      (∀ sc ∈ subs, sc ∉ f0.map Prod.fst) →
      (∀ sc ∈ subs, sc ∉ s0.map Prod.fst) →
      buildDicts env idx subs f0 s0 = .ok (f, s) →
      ∃ fl sl,
        f = f0 ++ fl ∧ s = s0 ++ sl ∧
        fl.map Prod.fst = subs ∧ sl.map Prod.fst = subs ∧
        ∀ k (hk : k < fl.length) (hk2 : k < sl.length),
          (fl.get ⟨k, hk⟩).2 = [] →
          (sl.get ⟨k, hk2⟩).2 = "No relevant information found for this topic.\n" := by
  intro subs
  induction subs with
  | nil =>
    intro idx f0 s0 f s _ _ _ h
    injection h with h2
    injection h2 with h3 h4
    subst h3
    subst h4
    refine ⟨[], [], by simp, by simp, rfl, rfl, ?_⟩
    intro k hk
    exact absurd hk (Nat.not_lt_zero k)
  | cons sc rest ih =>
    intro idx f0 s0 f s hnd hf0 hs0 h
    simp only [buildDicts] at h
    split at h
    · exact Except.noConfusion h
    · rw [dictInsert_notMem f0 sc _ (hf0 sc (List.mem_cons_self sc rest)),
        dictInsert_notMem s0 sc _ (hs0 sc (List.mem_cons_self sc rest))] at h
      have hnd2 := List.nodup_cons.mp hnd
      obtain ⟨fl, sl, hfe, hse, hfm, hsm, hidx⟩ :=
        ih (idx + 1) _ _ f s hnd2.2
          (by
            intro sc2 hm
            have h1 := hf0 sc2 (List.mem_cons_of_mem sc hm)
            have h2 : sc2 ≠ sc := fun hcontra => hnd2.1 (hcontra ▸ hm)
            simp [List.map_append, List.mem_append, h1, h2])
          (by
            intro sc2 hm
            have h1 := hs0 sc2 (List.mem_cons_of_mem sc hm)
            have h2 : sc2 ≠ sc := fun hcontra => hnd2.1 (hcontra ▸ hm)
            simp [List.map_append, List.mem_append, h1, h2])
          h
      rename_i result heq
      refine ⟨(sc, result.reports) :: fl,
        (sc,
          if result.reports ≠ [] then
            generateSubcomponentReport (env.sectionLLM idx) sc result.reports
          else "No relevant information found for this topic.\n") :: sl,
        ?_, ?_, ?_, ?_, ?_⟩
      · rw [hfe]
        simp
      · rw [hse]
        simp
      · simp [hfm]
      · simp [hsm]
      · intro k hk hk2 hemp
        cases k with
        | zero =>
          simp only [List.get] at hemp ⊢
          simp [hemp]
        | succ k =>
          exact hidx k (by simpa using hk) (by simpa using hk2) (by simpa using hemp)

/-- C8 amended: one section is produced per distinct declared subtopic, in
first-occurrence order, and a subtopic whose research produced zero accepted
evidence gets the fixed placeholder section
`"No relevant information found for this topic.\n"`; when the declared
subtopics are pairwise distinct this is exactly one section per declared
subtopic in the original decomposition order, and the final report is the
assembly of those sections.  (With duplicate subtopic names the dicts built
at lines 398 and 405-410 collapse, see `c8_counterexample`.) -/
theorem c8_sections (env : REnv) (query : String) (r : ResearchReport)
    (h : research env query = .ok r) (hnd : r.subcomponents.Nodup) :
    ∃ screps : List (String × String),
      buildDicts env 0 r.subcomponents [] [] = .ok (r.findings, screps) ∧
      screps.map Prod.fst = r.subcomponents ∧
      r.findings.map Prod.fst = r.subcomponents ∧
      (∀ k (hk : k < r.findings.length) (hk2 : k < screps.length),
        (r.findings.get ⟨k, hk⟩).2 = [] →
        (screps.get ⟨k, hk2⟩).2 = "No relevant information found for this topic.\n") ∧
      r.final_report = mkFinalReport env query r.subcomponents r.findings screps := by
  obtain ⟨subs, findings, screps, h1, h2, h3, rfl⟩ := research_ok_elim env query r h
  obtain ⟨fl, sl, hfe, hse, hfm, hsm, hidx⟩ :=
    buildDicts_fresh env subs 0 [] [] findings screps hnd
      (by intro sc hm; simp) (by intro sc hm; simp) h2
  simp only [List.nil_append] at hfe hse
  subst hfe
  subst hse
  exact ⟨_, h2, hsm, hfm, hidx, rfl⟩

/-- Witness for the amended C8 at a concrete environment: the section list
obtained from `c8_sections` is the concrete singleton placeholder section,
and the final report is its assembly. -/
theorem c8_sections_witness :
    trivReport.final_report =
      mkFinalReport trivREnv "q" trivReport.subcomponents trivReport.findings
        [("q", "No relevant information found for this topic.\n")] := by
  obtain ⟨screps, h1, h2, h3, h4, h5⟩ := c8_sections trivREnv "q" trivReport rfl (by decide)
  have hc : buildDicts trivREnv 0 trivReport.subcomponents [] [] =
      .ok (trivReport.findings,
        [("q", "No relevant information found for this topic.\n")]) := rfl
  rw [h1] at hc
  injection hc with hc2
  injection hc2 with hc3 hc4
  rw [h5, hc4]

/-- C8 counterexample: the decomposition yields the duplicate subtopic list
`["a", "a"]`; the final document contains a single `### a` section (the dicts
at lines 398 and 405-410 are keyed by subtopic name, so the second run
overwrites the first), not one section per declared subtopic — the report
below has two declared subtopics and exactly one `"\n### "` header. -/
theorem c8_counterexample :
    (research cenvC8 "q").map (fun r => (r.subcomponents, r.final_report)) =
      .ok (["a", "a"],
        "# Research Report\n\n## Executive Summary\n\nsum\n\n## Detailed Findings\n\n### a\nNo relevant information found for this topic.\n\n\n## Conclusion\n\nconc\n") :=
  rfl
